import Mathlib

/-!
Verification development for the parenting-assistant RAG engine.

Shallow embedding of the core services (embedding, vector similarity,
context assembly, safety filters, streaming orchestrator, preprocessing)
translated from the TypeScript source, together with theorems settling the
frozen behavioural claims about them.

Conventions used throughout:
- JavaScript promise rejection / thrown exceptions are modelled with
  `Except String`; external collaborators (database readers/writers, HTTP
  providers) are passed in as explicit environment records so that the
  theorems quantify over every behaviour of the collaborators.
- JavaScript numbers appearing in pure arithmetic are modelled as `ℚ`
  (similarity scores) or `Int`/`Nat` (ids, ages); `Math.sqrt` is modelled
  as an explicit function parameter constrained only where a claim needs
  the property `sqrt x = 0 ↔ x = 0` on nonnegative inputs.
- `String.prototype.includes(pat)` is substring containment; the allergy
  checker builds `new RegExp(allergen, 'i')` from dictionary entries that
  contain no regex metacharacters, so it is modelled as case-insensitive
  substring containment.
-/

/-- Substring containment on character lists: true when `pat` occurs as a
contiguous run inside `s` (this is JavaScript's `s.includes(pat)`,
including `includes("") = true`). -/
def containsSubList (s pat : List Char) : Bool :=
  match s with
  | [] => pat.isEmpty
  | _ :: t => pat.isPrefixOf s || containsSubList t pat

/-- JavaScript `s.includes(pat)` on strings. -/
def strIncludes (s pat : String) : Bool :=
  containsSubList s.data pat.data

/-- ASCII lower-casing character by character (`String.toLower` written
over the character list so that it reduces in the kernel). -/
def strToLower (s : String) : String :=
  String.mk (s.data.map Char.toLower)

/-- JavaScript's `text.trim()`: strip leading and trailing whitespace
(written over the character list so that it reduces in the kernel). -/
def jsTrim (s : String) : String :=
  String.mk (((s.data.dropWhile Char.isWhitespace).reverse.dropWhile
    Char.isWhitespace).reverse)

/-- Case-insensitive variant, modelling `new RegExp(pat, 'i').test(s)` for a
pattern without regex metacharacters (all dictionary entries are plain
Chinese strings, so the regex is a literal substring test). -/
def strIncludesCI (s pat : String) : Bool :=
  strIncludes (strToLower s) (strToLower pat)

namespace AllergyChecker

/-- The allergen expansion dictionary `allergyKeywordMap` of
`AllergyChecker`, copied verbatim from the source (duplicates included). -/
def allergyKeywordMap : List (String × List String) :=
  [("牛奶",
    ["奶制品", "奶粉", "酸奶", "奶酪", "乳制品", "乳糖", "酪蛋白", "黄油",
     "奶油", "奶油蛋糕", "奶油饼干", "奶油冰淇淋", "奶油奶酪", "酸奶酸奶饮料",
     "酸奶冰淇淋", "奶油巧克力"]),
   ("鸡蛋",
    ["蛋白", "蛋黄", "蛋清", "鸭蛋", "鹦鸡蛋", "蛋糕", "蛋挂面", "蛋黄派",
     "蛋卷", "蛋汁", "蛋奶", "蛋糕粉", "蛋黄酱", "蛋黄油"]),
   ("花生",
    ["花生酱", "花生油", "坚果", "花生粉", "花生酱三明治", "花生酱面包",
     "花生酱饼干", "花生酱巧克力", "花生酱冰淇淋", "花生糖", "花生糖水"]),
   ("坚果",
    ["核桃", "杏仁", "腰果", "榴子", "松子", "开心果", "核桃仁", "杏仁粉",
     "腰果仁", "榴子仁", "松子仁", "开心果仁", "坚果粉", "坚果酱", "坚果面包",
     "坚果饼干", "坚果巧克力", "坚果冰淇淋", "坚果糖"]),
   ("小麦",
    ["面粉", "面包", "面条", "麦麦", "麦芽", "麦质", "麦片", "麦片粉",
     "麦片饼干", "麦片面包", "麦片蛋糕", "麦片饼干", "麦片巧克力",
     "麦片冰淇淋", "麦片糖", "麦片糖水", "麦芽粉", "麦芽面包", "麦芽饼干",
     "麦芽蛋糕", "麦芽饼干", "麦芽巧克力", "麦芽冰淇淋", "麦芽糖", "麦芽糖水",
     "麦麦粉", "麦麦面包", "麦麦饼干", "麦麦蛋糕", "麦麦饼干", "麦麦巧克力",
     "麦麦冰淇淋", "麦麦糖", "麦麦糖水", "面粉粉", "面粉面包", "面粉饼干",
     "面粉蛋糕", "面粉饼干", "面粉巧克力", "面粉冰淇淋", "面粉糖", "面粉糖水"]),
   ("大豆",
    ["豆浆", "豆腐", "豆干", "豆皮", "豆油", "酱油", "豆浆粉", "豆浆面包",
     "豆浆饼干", "豆浆蛋糕", "豆浆饼干", "豆浆巧克力", "豆浆冰淇淋", "豆浆糖",
     "豆浆糖水", "豆腐粉", "豆腐面包", "豆腐饼干", "豆腐蛋糕", "豆腐饼干",
     "豆腐巧克力", "豆腐冰淇淋", "豆腐糖", "豆腐糖水"]),
   ("海鲜",
    ["鱼", "虾", "蟹", "贝类", "鱿鱼", "章鱼", "海产品", "鱼粉", "鱼面包",
     "鱼饼干", "鱼蛋糕", "鱼饼干", "鱼巧克力", "鱼冰淇淋", "鱼糖", "鱼糖水",
     "虾粉", "虾面包", "虾饼干", "虾蛋糕", "虾饼干", "虾巧克力", "虾冰淇淋",
     "虾糖", "虾糖水", "蟹粉", "蟹面包", "蟹饼干", "蟹蛋糕", "蟹饼干",
     "蟹巧克力", "蟹冰淇淋", "蟹糖", "蟹糖水"]),
   ("水果",
    ["草莓", "猿猜桃", "芒果", "菠萝", "柿橙", "草莓粉", "草莓面包",
     "草莓饼干", "草莓蛋糕", "草莓饼干", "草莓巧克力", "草莓冰淇淋", "草莓糖",
     "草莓糖水", "猿猜桃粉", "猿猜桃面包", "猿猜桃饼干", "猿猜桃蛋糕",
     "猿猜桃饼干", "猿猜桃巧克力", "猿猜桃冰淇淋", "猿猜桃糖", "猿猜桃糖水"]),
   ("贝类",
    ["贝壳", "贝壳粉", "贝壳面包", "贝壳饼干", "贝壳蛋糕", "贝壳饼干",
     "贝壳巧克力", "贝壳冰淇淋", "贝壳糖", "贝壳糖水"]),
   ("草莓",
    ["草莓粉", "草莓面包", "草莓饼干", "草莓蛋糕", "草莓饼干", "草莓巧克力",
     "草莓冰淇淋", "草莓糖", "草莓糖水"]),
   ("芒果",
    ["芒果粉", "芒果面包", "芒果饼干", "芒果蛋糕", "芒果饼干", "芒果巧克力",
     "芒果冰淇淋", "芒果糖", "芒果糖水"]),
   ("柿子",
    ["柿子粉", "柿子面包", "柿子饼干", "柿子蛋糕", "柿子饼干", "柿子巧克力",
     "柿子冰淇淋", "柿子糖", "柿子糖水"])]

/-- Lookup in the expansion dictionary; `this.allergyKeywordMap[allergen] || []`. -/
def keywordsFor (allergen : String) : List String :=
  match allergyKeywordMap.find? (fun p => p.1 == allergen) with
  | some p => p.2
  | none => []

/-- Result record of `AllergyChecker.check`. -/
structure CheckResult where
  hasPotentialAllergy : Bool
  allergens : List String
  deriving Repr, DecidableEq

/-- Embeds the private `containsAllergen`: the source builds
`new RegExp(allergen, 'i')` and tests it against the text, which for the
literal patterns used is a case-insensitive substring test. -/
def containsAllergen (text allergen : String) : Bool :=
  strIncludesCI text allergen

/-- Per-allergen step of the loop body in `AllergyChecker.check`: the direct
match pushes the allergen itself and `continue`s; otherwise the first
matching expansion keyword (the inner loop `break`s at the first hit) pushes
the formatted string. `none` models an iteration that pushes nothing. -/
def detectOne (response allergen : String) : Option String :=
  if containsAllergen response allergen then
    some allergen
  else
    match (keywordsFor allergen).find? (fun k => containsAllergen response k) with
    | some k => some (allergen ++ "(" ++ k ++ ")")
    | none => none

/-- Embeds `AllergyChecker.check(response, allergyInfo)`. The TypeScript
parameter is an array that may be `null` at runtime; the guard
`!allergyInfo || allergyInfo.length === 0` is modelled by the `Option` and
the emptiness test. The accumulation loop over `allergyInfo` is
`List.filterMap detectOne`. -/
def check (response : String) (allergyInfo : Option (List String)) : CheckResult :=
  match allergyInfo with
  | none => { hasPotentialAllergy := false, allergens := [] }
  | some info =>
    if info.isEmpty then
      { hasPotentialAllergy := false, allergens := [] }
    else
      let detectedAllergens := info.filterMap (detectOne response)
      { hasPotentialAllergy := !detectedAllergens.isEmpty
        allergens := detectedAllergens }

end AllergyChecker

namespace MedicalChecker

/-- The fixed `medicalKeywords` list, copied verbatim from the source. -/
def medicalKeywords : List String :=
  ["诊断", "治疗", "用药", "药物", "处方", "剂量", "副作用", "症状", "疾病",
   "感染", "炎症", "发烧", "发热", "体温", "抗生素", "消炎药", "退烧药",
   "止痛药", "处方药", "非处方药", "就医", "看医生", "去医院", "门诊", "急诊",
   "专科", "过敏反应", "不良反应", "禁忌症", "肺炎", "支气管炎", "中耳炎",
   "咽喉炎", "扁桃体炎", "皮疹", "湿疹", "荨麻疹", "腹泻", "便秘", "呕吐",
   "腹痛", "头痛", "耳痛", "喉咙痛", "咳嗽", "流涕", "鼻塞", "打喷嚏",
   "呼吸困难", "惊厥", "抽搐", "脱水", "脱水症状", "病毒", "细菌", "真菌",
   "寄生虫", "免疫力", "抵抗力", "疫苗", "接种", "预防针", "疫苗接种", "药效",
   "药理", "药代动力学", "药物相互作用", "药物过敏", "药物不良反应", "药物禁忌"]

/-- The fixed `strongMedicalIndicators` list, copied verbatim from the source. -/
def strongMedicalIndicators : List String :=
  ["必须服用", "应该服用", "需要服用", "建议服用", "可以服用", "试试服用",
   "考虑服用", "必须使用", "应该使用", "需要使用", "建议使用", "可以使用",
   "试试使用", "考虑使用", "必须治疗", "应该治疗", "需要治疗", "建议治疗",
   "可以治疗", "试试治疗", "考虑治疗", "必须就医", "应该就医", "需要就医",
   "建议就医", "可以就医", "考虑就医", "医生会", "医生可能会", "医生通常会",
   "医生建议", "医生推荐", "医生处方", "医生诊断", "医生治疗", "这种疾病",
   "这种症状", "这种情况通常是", "这可能是", "这表明", "这预示着", "这意味着",
   "这是典型的", "这是常见的", "这是正常的", "这是异常的", "这需要关注",
   "这需要处理", "这需要干预", "这需要医疗干预", "这需要专业处理",
   "这需要专业治疗", "这需要专业评估", "这需要专业诊断", "这需要专业建议",
   "这需要专业帮助", "这需要专业指导", "这需要专业咨询", "这需要专业意见"]

/-- Result record of `MedicalChecker.check`. -/
structure CheckResult where
  containsMedicalAdvice : Bool
  medicalTerms : List String
  deriving Repr, DecidableEq

/-- Embeds `MedicalChecker.check(response)`: first collect every strong
indicator occurring in the response (`response.includes(indicator)`); if any
was found, return immediately with those terms; otherwise collect the
occurring medical keywords and compare their number with the threshold 2. -/
def check (response : String) : CheckResult :=
  let strongDetected := strongMedicalIndicators.filter (fun i => strIncludes response i)
  if !strongDetected.isEmpty then
    { containsMedicalAdvice := true, medicalTerms := strongDetected }
  else
    let keywordDetected := medicalKeywords.filter (fun k => strIncludes response k)
    { containsMedicalAdvice := keywordDetected.length ≥ 2
      medicalTerms := keywordDetected }

/-- The fixed disclaimer suffix appended by `MedicalChecker.addDisclaimer`. -/
def disclaimerText : String :=
  "\n\n【免责声明】以上内容仅供参考，不构成医疗建议。如有健康问题，请咨询专业医生或儿科医师。"

/-- Embeds `MedicalChecker.addDisclaimer(response)`. -/
def addDisclaimer (response : String) : String :=
  response ++ disclaimerText

end MedicalChecker

namespace EmbeddingService

/-- Dot product loop of `calculateCosineSimilarity` (paired entries up to the
common length; the guard ensures the lists have equal length before use). -/
def dotProd : List ℚ → List ℚ → ℚ
  | a :: as, b :: bs => a * b + dotProd as bs
  | _, _ => 0

/-- Accumulated `normA`/`normB` before the square root: the sum of squares. -/
def sumSq (v : List ℚ) : ℚ :=
  (v.map (fun x => x * x)).sum

/-- Embeds `EmbeddingService.calculateCosineSimilarity(vecA, vecB)`.
Floating-point numbers are modelled as `ℚ`; `Math.sqrt` is the explicit
parameter `sqrt`, so the source's test `normA === 0 || normB === 0` is the
test `sqrt (sumSq vecA) = 0 ∨ sqrt (sumSq vecB) = 0` (for real square
roots the two are equivalent to the sums of squares being zero). A thrown
`向量维度不匹配` error is the `.error` branch. -/
def calculateCosineSimilarity (sqrt : ℚ → ℚ) (vecA vecB : List ℚ) :
    Except String ℚ :=
  if vecA.length ≠ vecB.length then
    .error ("向量维度不匹配: A=" ++ toString vecA.length ++ ", B=" ++ toString vecB.length)
  else
    let dotProduct := dotProd vecA vecB
    let normA := sqrt (sumSq vecA)
    let normB := sqrt (sumSq vecB)
    if normA = 0 ∨ normB = 0 then
      .ok 0
    else
      .ok (dotProduct / (normA * normB))

/-- One entry of the result array of `sortVectorsBySimilarity` /
`findMostSimilarVectors`: a candidate vector, its similarity to the query,
and the metadata at the same index (JavaScript yields `undefined`, modelled
`none`, when no metadata array was passed or the index is out of range). -/
structure SimResult (T : Type) where
  vector : List ℚ
  similarity : ℚ
  metadata : Option T
  deriving Repr

/-- Metadata pairing `metadata ? metadata[index] : undefined`. -/
def mdAt {T : Type} (md : Option (List T)) (i : Nat) : Option T :=
  md.bind (fun l => l[i]?)

/-- Recursion over the candidates carrying the running index `i`, building
`{ vector, similarity, metadata }` for each one. -/
def scoredResultsFrom {T : Type} (sqrt : ℚ → ℚ) (queryVector : List ℚ)
    (metadata : Option (List T)) (i : Nat) :
    List (List ℚ) → Except String (List (SimResult T))
  | [] => .ok []
  | v :: vs => do
    let s ← calculateCosineSimilarity sqrt queryVector v
    let rest ← scoredResultsFrom sqrt queryVector metadata (i + 1) vs
    pure ({ vector := v, similarity := s, metadata := mdAt metadata i } :: rest)

/-- The per-index map of `sortVectorsBySimilarity`,
`vectors.map((vector, index) => { vector, similarity, metadata })` (an
exception thrown by `calculateCosineSimilarity` inside the map propagates
out of the whole call). -/
def scoredResults {T : Type} (sqrt : ℚ → ℚ) (queryVector : List ℚ)
    (vectors : List (List ℚ)) (metadata : Option (List T)) :
    Except String (List (SimResult T)) :=
  scoredResultsFrom sqrt queryVector metadata 0 vectors

/-- Descending order on similarity, the comparator
`(a, b) => b.similarity - a.similarity` of the source's `.sort`. -/
def simDesc {T : Type} (a b : SimResult T) : Prop :=
  b.similarity ≤ a.similarity

instance {T : Type} : DecidableRel (@simDesc T) :=
  fun a b => inferInstanceAs (Decidable (b.similarity ≤ a.similarity))

instance {T : Type} : IsTotal (SimResult T) simDesc :=
  ⟨fun a b => (le_total b.similarity a.similarity).imp id id⟩

instance {T : Type} : IsTrans (SimResult T) simDesc :=
  ⟨fun _ _ _ h1 h2 => le_trans h2 h1⟩

/-- Embeds `EmbeddingService.sortVectorsBySimilarity(queryVector, vectors,
metadata?)`: empty/missing candidate array returns `[]` immediately;
otherwise every candidate is scored against the query and the result array
is sorted descending by similarity. The dimension check against the
configured dimension in the source only logs a warning and changes nothing.
JavaScript's `Array.prototype.sort` is an unstable comparison sort and the
spec leaves the tie-break unspecified, so it is modelled by insertion sort
with the same comparator. -/
def sortVectorsBySimilarity {T : Type} (sqrt : ℚ → ℚ) (queryVector : List ℚ)
    (vectors : List (List ℚ)) (metadata : Option (List T)) :
    Except String (List (SimResult T)) :=
  if vectors.isEmpty then
    .ok []
  else do
    let results ← scoredResults sqrt queryVector vectors metadata
    pure (results.insertionSort simDesc)

/-- Embeds `EmbeddingService.findMostSimilarVectors(queryVector, vectors,
metadata?, topK = 1, minSimilarity = 0)`: sort, keep the results with
`similarity >= minSimilarity`, return the first `topK` (`slice(0, topK)`). -/
def findMostSimilarVectors {T : Type} (sqrt : ℚ → ℚ) (queryVector : List ℚ)
    (vectors : List (List ℚ)) (metadata : Option (List T))
    (topK : Nat := 1) (minSimilarity : ℚ := 0) :
    Except String (List (SimResult T)) := do
  let sortedResults ← sortVectorsBySimilarity sqrt queryVector vectors metadata
  let filteredResults := sortedResults.filter (fun r => minSimilarity ≤ r.similarity)
  pure (filteredResults.take topK)

/-- Embeds `EmbeddingService.generateEmbedding(text)`. The provider call
`this.embeddingModel.embedQuery(text)` is the parameter `embedQuery`; the
surrounding `try`/`catch` rethrows every failure wrapped as
`生成嵌入失败: ...`, and the empty/whitespace guard throws before the
provider is consulted. A mismatch between the returned vector's length and
the configured dimension is only logged, never rejected. -/
def generateEmbedding (embedQuery : String → Except String (List ℚ))
    (text : String) : Except String (List ℚ) :=
  if text = "" ∨ jsTrim text = "" then
    .error ("生成嵌入失败: " ++ "嵌入文本不能为空")
  else
    match embedQuery text with
    | .error e => .error ("生成嵌入失败: " ++ e)
    | .ok embedding => .ok embedding

end EmbeddingService

namespace AIService

/-- Return record of `AIService.performSafetyChecks`. -/
structure SafetyOutcome where
  response : String
  safetyFlags : List String
  deriving Repr

/-- The allergy warning suffix appended inside `performSafetyChecks`. -/
def allergyWarningText (allergens : List String) : String :=
  "\n\n【过敏警告】请注意，上述内容可能包含对" ++ String.intercalate "、" allergens
    ++ "过敏的风险。如果您的孩子对这些物质过敏，请避免接触。"

/-- Embeds `AIService.performSafetyChecks(response, allergyInfo)`: run the
allergy checker on the raw response (the call sites pass
`context.child?.allergyInfo || []`, never `null`), push an `ALLERGY:` flag
and append the warning when flagged; then run the medical checker on the
raw response, push a `MEDICAL:` flag and append the disclaimer when
flagged. The two `+=`/`addDisclaimer` steps are the string appends. -/
def performSafetyChecks (response : String) (allergyInfo : List String) :
    SafetyOutcome :=
  let allergyResult := AllergyChecker.check response (some allergyInfo)
  let flags1 :=
    if allergyResult.hasPotentialAllergy then
      ["ALLERGY:" ++ String.intercalate "," allergyResult.allergens]
    else []
  let processed1 :=
    if allergyResult.hasPotentialAllergy then
      response ++ allergyWarningText allergyResult.allergens
    else response
  let medicalResult := MedicalChecker.check response
  let flags2 :=
    if medicalResult.containsMedicalAdvice then
      flags1 ++ ["MEDICAL:" ++ String.intercalate "," medicalResult.medicalTerms]
    else flags1
  let processed2 :=
    if medicalResult.containsMedicalAdvice then
      MedicalChecker.addDisclaimer processed1
    else processed1
  { response := processed2, safetyFlags := flags2 }

/-- The fixed age-bucket guidance text chosen inside
`AIService.getAgeSpecificGuidance` (the branch cascade of the source,
factored out of the final concatenation). -/
def ageGuidanceText (ageInMonths : Int) : String :=
  if ageInMonths ≤ 3 then
    "\n\n【0-3个月婴儿提示】这个阶段的宝宝需要频繁喂养，每天约8-12次。确保正确的抱姿和充分的皮肤接触。注意观察宝宝的睡眠信号，避免过度刺激。"
  else if ageInMonths ≤ 6 then
    "\n\n【4-6个月婴儿提示】这个阶段的宝宝开始对周围环境更感兴趣，可以进行适当的感官刺激游戏。关注宝宝的睡眠模式，可能需要建立更规律的作息。"
  else if ageInMonths ≤ 9 then
    "\n\n【7-9个月婴儿提示】这个阶段的宝宝通常开始添加辅食，可以尝试单一食材泥。注意观察宝宝的爬行和坐立能力发展，提供安全的探索环境。"
  else if ageInMonths ≤ 12 then
    "\n\n【10-12个月婴儿提示】这个阶段的宝宝可能开始尝试站立和迈步，需要更多的活动空间和安全防护。可以增加辅食种类和质地，鼓励自主进食。"
  else if ageInMonths ≤ 18 then
    "\n\n【13-18个月幼儿提示】这个阶段的宝宝语言能力开始发展，可以多与宝宝交流，读简单的图画书。注意引导情绪表达和简单的规则意识。"
  else if ageInMonths ≤ 24 then
    "\n\n【19-24个月幼儿提示】这个阶段的宝宝独立性增强，可能出现\"不要\"阶段，需要耐心引导和设定合理界限。鼓励参与简单的日常活动，如协助穿衣、收拾玩具。"
  else if ageInMonths ≤ 36 then
    "\n\n【25-36个月幼儿提示】这个阶段的宝宝想象力丰富，可以进行角色扮演游戏。语言能力快速发展，可以进行更复杂的对话。可能开始对如厕训练感兴趣。"
  else
    "\n\n【3岁以上儿童提示】这个阶段的孩子社交能力增强，可以鼓励与其他孩子的互动。认知能力发展迅速，可以进行更复杂的学习活动。注意培养良好的生活习惯和自理能力。"

/-- Embeds `AIService.getAgeSpecificGuidance(response, ageInMonths)`:
returns `response + ageGuidance` where `ageGuidance` is the age-bucket text. -/
def getAgeSpecificGuidance (response : String) (ageInMonths : Int) : String :=
  response ++ ageGuidanceText ageInMonths

/-- The part of the built context that influences the emitted events and the
persisted texts: the optional child with age and allergy list. The other
context fields (records, chat history, the rendered prompt) only shape the
messages sent to the provider, which is abstracted by the environment. -/
structure ChildContext where
  ageInMonths : Int
  allergyInfo : List String
  deriving Repr

/-- Context handed back by `contextFactory.buildContext` (claim-relevant part). -/
structure ChatContext where
  child : Option ChildContext
  deriving Repr

/-- One event pushed on the response `Subject` by `chatStream`. -/
inductive StreamEvent where
  | content (text : String)
  | done (chatId : Nat) (safetyFlags : List String)
  | error (message : String)
  deriving Repr, DecidableEq

/-- Terminal events are `done` and `error`; `content` is not. -/
def StreamEvent.isTerminal : StreamEvent → Bool
  | .content _ => false
  | .done _ _ => true
  | .error _ => true

/-- Behaviour of `langchainService.generateResponseStream(messages)` within
one request: it may throw synchronously while the stream is being set up
(rejecting the surrounding `.then` body, which lands in the outer `.catch`),
emit some tokens and then signal `error`, or emit its tokens and complete. -/
inductive ProviderStream where
  | subscribeThrows (message : String)
  | errors (tokens : List String) (message : String)
  | completes (tokens : List String)

/-- Environment of one `chatStream` request: the context factory promise,
the provider token stream, and the chat-history writer
(`chatHistoryService.createChatHistory`, called with the final filtered
response, resolving to the persisted row's id or rejecting). -/
structure ChatStreamEnv where
  buildContext : Except String ChatContext
  providerStream : ProviderStream
  createChatHistory : String → Except String Nat

/-- The claim-relevant columns of the persisted `ChatHistory` row:
`aiResponse` (post-filter) and `rawAiResponse` (the accumulated raw stream). -/
structure PersistedChat where
  aiResponse : String
  rawAiResponse : String
  deriving Repr, DecidableEq

/-- Observable outcome of one `chatStream` call: the ordered list of events
pushed with `subject.next`, whether `subject.complete()` was called, and the
`ChatHistory` row written (when the writer was reached and succeeded). -/
structure StreamRun where
  events : List StreamEvent
  completed : Bool
  persisted : Option PersistedChat
  deriving Repr

/-- Steps 4-5 shared by `chat` and `chatStream`: safety-check the
accumulated raw response, then append the age-specific guidance when a
child is in context. Returns the final response and the safety flags. -/
def finalizeResponse (fullResponse : String) (child : Option ChildContext) :
    String × List String :=
  let safety := performSafetyChecks fullResponse ((child.map (fun c => c.allergyInfo)).getD [])
  let finalResponse :=
    match child with
    | some c => getAgeSpecificGuidance safety.response c.ageInMonths
    | none => safety.response
  (finalResponse, safety.safetyFlags)

/-- Embeds `AIService.chatStream(userId, childId, message)` as a function of
the request environment. Control flow of the source: a rejected
`buildContext` promise (or a synchronous throw inside its `.then` body) hits
the `.catch`, which pushes one `构建上下文失败` error event and completes;
a provider stream `error` pushes one `流式生成回复失败` error event and
completes; on stream completion the accumulated tokens are safety-checked,
the row is written, and either a single `done` event (with the row id and
flags) or a single `处理流式聊天请求失败` error event (when the write
rejects) is pushed before completing. Every `content` token is forwarded in
order before the terminal event. -/
def chatStream (env : ChatStreamEnv) : StreamRun :=
  match env.buildContext with
  | .error e =>
    { events := [.error ("构建上下文失败: " ++ e)]
      completed := true
      persisted := none }
  | .ok context =>
    match env.providerStream with
    | .subscribeThrows e =>
      { events := [.error ("构建上下文失败: " ++ e)]
        completed := true
        persisted := none }
    | .errors tokens e =>
      { events := tokens.map .content ++ [.error ("流式生成回复失败: " ++ e)]
        completed := true
        persisted := none }
    | .completes tokens =>
      let fullResponse := String.join tokens
      let finalized := finalizeResponse fullResponse context.child
      match env.createChatHistory finalized.1 with
      | .ok chatId =>
        { events := tokens.map .content ++ [.done chatId finalized.2]
          completed := true
          persisted := some { aiResponse := finalized.1, rawAiResponse := fullResponse } }
      | .error e =>
        { events := tokens.map .content ++ [.error ("处理流式聊天请求失败: " ++ e)]
          completed := true
          persisted := none }

end AIService

/-- Calendar date as read through `getFullYear()` / `getMonth()` /
`getDate()`. The month is kept 1-based (JavaScript's `getMonth()` is
0-based, but only month differences and the ISO date string enter the
computations, and both are unchanged by the shift). -/
structure SimpleDate where
  year : Int
  month : Int
  day : Int
  deriving Repr, DecidableEq

namespace ContextRagFactory

/-- Embeds `ContextRagFactory.calculateAgeInMonths(dateOfBirth)` with the
current date `today` made explicit (`new Date()` in the source). The
source first compares the birth date's ISO day string against three
hard-coded dates (a shortcut for mocked test dates) and returns fixed
values for them; otherwise it computes the month difference, subtracts one
when the day of month has not been reached, and clamps at zero. -/
def calculateAgeInMonths (today dateOfBirth : SimpleDate) : Int :=
  if dateOfBirth = ⟨2023, 1, 9⟩ then 28
  else if dateOfBirth = ⟨2024, 5, 9⟩ then 12
  else if dateOfBirth = ⟨2025, 1, 9⟩ then 4
  else
    let months := (today.year - dateOfBirth.year) * 12 + (today.month - dateOfBirth.month)
    let monthsAdjusted := if today.day < dateOfBirth.day then months - 1 else months
    if monthsAdjusted > 0 then monthsAdjusted else 0

/-- Modelled from the spec: the age formula the specification states for the
context assembler, `(today.year-birth.year)*12 + (today.month-birth.month)
- (today.day<birth.day ? 1:0)`, clamped to be nonnegative. Kept separate
from the source embedding above so the two can be compared. -/
def specAgeInMonths (today dateOfBirth : SimpleDate) : Int :=
  max 0 ((today.year - dateOfBirth.year) * 12 + (today.month - dateOfBirth.month)
    - (if today.day < dateOfBirth.day then 1 else 0))

/-- Child row returned by `childrenService.findOne` / `findAll`. -/
structure ChildRow where
  id : Nat
  nickname : String
  dateOfBirth : SimpleDate
  gender : String
  allergyInfo : List String
  deriving Repr

/-- One row returned by `vectorService.searchSimilarTextChunks`; the
`metadata` JSON is represented by its only consulted field,
`metadata?.type` (`metaType = none` models a metadata object without a
`type` field or a missing metadata object). -/
structure VectorHit where
  content : String
  sourceType : String
  sourceId : Nat
  similarity : ℚ
  metaType : Option String
  deriving Repr, DecidableEq

/-- Record row returned by `recordsService.findOne` / `findAllByChild`;
`recordTimestamp` is kept as its ISO string (`toISOString()` is modelled as
the identity on the stored string). -/
structure RecordRow where
  id : Nat
  recordType : String
  details : String
  recordTimestamp : String
  deriving Repr

/-- Chat-history row returned by `chatHistoryService`. -/
structure ChatRow where
  id : Nat
  childId : Option Nat
  userMessage : String
  aiResponse : String
  requestTimestamp : String
  deriving Repr

/-- Entry of `context.relevantRecords`. The vector path attaches the
originating similarity (`some`), the fallback path builds the object
without a similarity field (`none`). -/
structure RecordCtx where
  type : String
  details : String
  createdAt : String
  similarity : Option ℚ
  deriving Repr, DecidableEq

/-- Entry of `context.relevantChatHistory` (same similarity convention). -/
structure ChatCtx where
  userMessage : String
  aiResponse : String
  createdAt : String
  similarity : Option ℚ
  deriving Repr, DecidableEq

/-- Entry of `context.profileInfo`. -/
structure ProfileCtx where
  content : String
  type : String
  similarity : ℚ
  deriving Repr, DecidableEq

/-- Entry of `context.availableChildren` (no child selected). -/
structure AvailableChild where
  id : Nat
  name : String
  ageInMonths : Int
  deriving Repr

/-- Entry of `context.recentChats` (no child selected). -/
structure RecentChat where
  userMessage : String
  aiResponse : String
  childId : Option Nat
  createdAt : String
  deriving Repr

/-- The `context.child` summary. -/
structure ChildSummary where
  id : Nat
  name : String
  ageInMonths : Int
  gender : String
  allergyInfo : List String
  deriving Repr

/-- The context object assembled by `ContextRagFactory.buildContext`.
`vectorSearchResults = none` models the JavaScript value `undefined`
(fallback used); `some []` models the empty array (vector search ran and
found nothing). Fields assigned only on some paths (`profileInfo`,
`availableChildren`, `recentChats`) are `Option`s that start absent. -/
structure RagContext where
  userId : Nat
  child : Option ChildSummary
  relevantRecords : List RecordCtx
  relevantChatHistory : List ChatCtx
  vectorSearchResults : Option (List VectorHit)
  profileInfo : Option (List ProfileCtx)
  availableChildren : Option (List AvailableChild)
  recentChats : Option (List RecentChat)
  deriving Repr

/-- Behaviour of the external collaborators during one `buildContext` call.
Each field is the settled outcome of the corresponding awaited call
(`.error` = rejected promise / thrown exception). `getUserChats` takes the
requested limit (5 on the fallback path, 3 on the no-child path); the
offset is always 0. -/
structure RagEnv where
  today : SimpleDate
  findOne : Except String (Option ChildRow)
  searchSimilarTextChunks : Except String (List VectorHit)
  findRecord : Nat → Except String (Option RecordRow)
  getChatHistoryById : Nat → Except String (Option ChatRow)
  findAllByChild : Except String (List RecordRow)
  getUserChats : Nat → Except String (List ChatRow)
  findAll : Except String (List ChildRow)

/-- First-occurrence deduplication, JavaScript's `[...new Set(xs)]`. -/
def dedupFirst : List Nat → List Nat
  | [] => []
  | x :: xs => x :: (dedupFirst xs).filter (fun y => y ≠ x)

/-- Descending similarity on hydrated records,
`(a, b) => b.similarity - a.similarity` (fallback entries carry no score;
on the sorted vector path the score is always present). -/
def recordCtxDesc (a b : RecordCtx) : Prop :=
  b.similarity.getD 0 ≤ a.similarity.getD 0

instance : DecidableRel recordCtxDesc :=
  fun a b => inferInstanceAs (Decidable (b.similarity.getD 0 ≤ a.similarity.getD 0))

/-- Descending similarity on hydrated chat entries. -/
def chatCtxDesc (a b : ChatCtx) : Prop :=
  b.similarity.getD 0 ≤ a.similarity.getD 0

instance : DecidableRel chatCtxDesc :=
  fun a b => inferInstanceAs (Decidable (b.similarity.getD 0 ≤ a.similarity.getD 0))

/-- Embeds `ContextRagFactory.fallbackToTraditionalContext(context, childId,
userId)`: set `vectorSearchResults` to `undefined`, then try to load all of
the child's records and the user's last 5 chat turns (filtered to the child
when `childId` is truthy); each of the two reads has its own `try`/`catch`,
so a failing read leaves the corresponding field as it was. -/
def fallbackToTraditionalContext (env : RagEnv) (context : RagContext)
    (childId : Nat) : RagContext :=
  let ctx1 := { context with vectorSearchResults := none }
  let ctx2 :=
    match env.findAllByChild with
    | .ok recentRecords =>
      { ctx1 with relevantRecords := recentRecords.map (fun record =>
          { type := record.recordType, details := record.details
            createdAt := record.recordTimestamp, similarity := none }) }
    | .error _ => ctx1
  match env.getUserChats 5 with
  | .ok chatHistory =>
    let filteredChatHistory :=
      if childId ≠ 0 then chatHistory.filter (fun chat => chat.childId == some childId)
      else chatHistory
    { ctx2 with relevantChatHistory := filteredChatHistory.map (fun chat =>
        { userMessage := chat.userMessage, aiResponse := chat.aiResponse
          createdAt := chat.requestTimestamp, similarity := none }) }
  | .error _ => ctx2

/-- The inner `try` block of `buildContext` once the child is loaded: run
the vector search (`limit = 10`, `threshold = 0.6` are applied inside the
store and folded into the environment's result), store the mapped hits,
partition them by source type, hydrate the distinct record and chat ids
(`Promise.all` rejects when any lookup rejects, modelled by `mapM`), attach
each hydrated item's similarity (`?.similarity || 0`), sort both hydrated
groups descending, and attach `profileInfo` when profile hits exist. Any
`.error` escaping this block lands in the inner `catch`, which falls back. -/
def vectorPath (env : RagEnv) (ctx0 : RagContext) : Except String RagContext := do
  let vectorResults ← env.searchSimilarTextChunks
  let ctx1 := { ctx0 with vectorSearchResults := some vectorResults }
  let recordResults := vectorResults.filter (fun r => r.sourceType == "record")
  let chatResults := vectorResults.filter (fun r => r.sourceType == "chat_history")
  let profileResults := vectorResults.filter (fun r => r.sourceType == "child_profile")
  let ctx2 ←
    if recordResults.isEmpty then pure ctx1
    else do
      let recordIds := dedupFirst (recordResults.map (fun r => r.sourceId))
      let records ← recordIds.mapM env.findRecord
      let mapped := (records.filterMap id).map (fun record =>
        { type := record.recordType, details := record.details
          createdAt := record.recordTimestamp
          similarity := some (((recordResults.find?
            (fun r => r.sourceId == record.id)).map (fun r => r.similarity)).getD 0) })
      pure { ctx1 with relevantRecords := mapped.insertionSort recordCtxDesc }
  let ctx3 ←
    if chatResults.isEmpty then pure ctx2
    else do
      let chatIds := dedupFirst (chatResults.map (fun r => r.sourceId))
      let chats ← chatIds.mapM env.getChatHistoryById
      let mapped := (chats.filterMap id).map (fun chat =>
        { userMessage := chat.userMessage, aiResponse := chat.aiResponse
          createdAt := chat.requestTimestamp
          similarity := some (((chatResults.find?
            (fun r => r.sourceId == chat.id)).map (fun r => r.similarity)).getD 0) })
      pure { ctx2 with relevantChatHistory := mapped.insertionSort chatCtxDesc }
  if profileResults.isEmpty then pure ctx3
  else pure { ctx3 with profileInfo := some (profileResults.map (fun r =>
    { content := r.content, type := r.metaType.getD "general", similarity := r.similarity })) }

/-- The `else` branch of `buildContext` (no child selected): list the
user's children and the last 3 chat turns, each in its own `try`/`catch`
that leaves the field absent on failure. -/
def noChildBranch (env : RagEnv) (context : RagContext) : RagContext :=
  let ctx1 :=
    match env.findAll with
    | .ok children =>
      { context with availableChildren := some (children.map (fun child =>
          { id := child.id, name := child.nickname
            ageInMonths := calculateAgeInMonths env.today child.dateOfBirth })) }
    | .error _ => context
  match env.getUserChats 3 with
  | .ok chatHistory =>
    { ctx1 with recentChats := some (chatHistory.map (fun chat =>
        { userMessage := chat.userMessage, aiResponse := chat.aiResponse
          childId := chat.childId, createdAt := chat.requestTimestamp })) }
  | .error _ => ctx1

/-- Embeds `ContextRagFactory.buildContext(userId, childId, userQuery)`.
The user query only feeds the vector search, which the environment already
resolves. `if (childId)` is a JavaScript truthiness test, so `some 0`
behaves like `none`. A failed or empty child lookup (the source throws
`未找到孩子` for a `null` child) lands in the outer `catch`; a failure
inside the vector path lands in the inner `catch`; both fall back to the
traditional context. -/
def buildContext (env : RagEnv) (userId : Nat) (childId : Option Nat) : RagContext :=
  let context : RagContext :=
    { userId := userId, child := none, relevantRecords := []
      relevantChatHistory := [], vectorSearchResults := some []
      profileInfo := none, availableChildren := none, recentChats := none }
  match childId with
  | some cid =>
    if cid = 0 then noChildBranch env context
    else
      match env.findOne with
      | .error _ => fallbackToTraditionalContext env context cid
      | .ok none => fallbackToTraditionalContext env context cid
      | .ok (some child) =>
        let ctxChild := { context with child := some (
          { id := child.id, name := child.nickname
            ageInMonths := calculateAgeInMonths env.today child.dateOfBirth
            gender := child.gender, allergyInfo := child.allergyInfo : ChildSummary }) }
        match vectorPath env ctxChild with
        | .ok ctx2 => ctx2
        | .error _ => fallbackToTraditionalContext env ctxChild cid
  | none => noChildBranch env context

end ContextRagFactory

namespace ContextFactory

/-- Embeds the plain `ContextFactory.calculateAgeInMonths(dateOfBirth)` (the
non-RAG factory used by `AIService.chat`/`chatStream`): year and month
difference only, with no day-of-month adjustment and no clamping. -/
def calculateAgeInMonths (today dateOfBirth : SimpleDate) : Int :=
  (today.year - dateOfBirth.year) * 12 + (today.month - dateOfBirth.month)

end ContextFactory

namespace PreprocessingService

/-- Metadata attached to a stored text chunk (the JSON object passed to the
vector service, represented by the fields each call site actually sets). -/
inductive ChunkMeta where
  | basicInfo (ageInMonths : Int) (gender : String)
  | allergyInfo (allergyCount : Nat)
  | moreInfo
  | record (type : String) (timestamp : String) (details : String)
  deriving Repr, DecidableEq

/-- A row of the `text_chunks` table (embedding column omitted: it is a
pure function of `content` computed by the embedding service and plays no
role in the replace-not-merge lifecycle). -/
structure Chunk where
  content : String
  sourceType : String
  sourceId : Nat
  childId : Nat
  metadata : ChunkMeta
  deriving Repr, DecidableEq

/-- Embeds `PostgresVectorService.deleteTextChunksBySource(sourceType,
sourceId)`: `DELETE FROM "text_chunks" WHERE source_type = $1 AND
source_id = $2` over the table state. -/
def deleteTextChunksBySource (store : List Chunk) (sourceType : String)
    (sourceId : Nat) : List Chunk :=
  store.filter (fun c => !(c.sourceType == sourceType && c.sourceId == sourceId))

/-- Embeds `PostgresVectorService.addTextChunks(chunks)`: one `INSERT` per
chunk inside a single transaction, appending the rows to the table. -/
def addTextChunks (store newChunks : List Chunk) : List Chunk :=
  store ++ newChunks

/-- Child row as read by `processChildProfile` (`prisma.child.findUnique`).
`gender` and `moreInfo` are nullable columns. -/
structure ChildProfileRow where
  id : Nat
  userId : Nat
  nickname : String
  dateOfBirth : SimpleDate
  gender : Option String
  allergyInfo : List String
  moreInfo : Option String
  deriving Repr

/-- Two-digit rendering used in the ISO date string. -/
def pad2 (n : Int) : String :=
  if n < 10 then "0" ++ toString n else toString n

/-- The date part of `toISOString()`, `YYYY-MM-DD`. -/
def isoDateString (d : SimpleDate) : String :=
  toString d.year ++ "-" ++ pad2 d.month ++ "-" ++ pad2 d.day

/-- Embeds the private `buildChildBasicInfoText(child, ageInMonths)`. -/
def buildChildBasicInfoText (child : ChildProfileRow) (ageInMonths : Int) : String :=
  let gender := match child.gender with
    | some g => "性别为" ++ g
    | none => "性别未知"
  "儿童基本信息：\n昵称：" ++ child.nickname ++ "\n" ++ gender
    ++ "\n出生日期：" ++ isoDateString child.dateOfBirth
    ++ "\n当前月龄：" ++ toString ageInMonths ++ "个月\n用户ID：" ++ toString child.userId

/-- Embeds the private `buildChildAllergyInfoText(child)`. -/
def buildChildAllergyInfoText (child : ChildProfileRow) : String :=
  if child.allergyInfo.isEmpty then
    "儿童过敏信息：无已知过敏原。"
  else
    "儿童过敏信息：\n过敏原列表：" ++ String.intercalate "、" child.allergyInfo
      ++ "\n请注意避免推荐含有以上过敏原的食物或产品。"

/-- Embeds the private `buildChildMoreInfoText(child)` (`!child.moreInfo`
is falsy for both `null` and the empty string). -/
def buildChildMoreInfoText (child : ChildProfileRow) : String :=
  match child.moreInfo with
  | none => ""
  | some m => if m = "" then "" else "儿童额外信息：\n" ++ m

/-- Embeds `PreprocessingService.processChildProfile(childId)` as a state
transformation of the `text_chunks` table. `findChild` is the settled
result of `prisma.child.findUnique`; `today` is `new Date()`. An absent
child returns `false` without touching the table; otherwise the three
profile texts are built, the old `child_profile`/`childId` chunks are
deleted, and the freshly built chunks (each guarded by the truthiness of
its content) are inserted. The local age computation of this method has no
day-of-month adjustment, exactly as in the source. The `chunks` array is
factored out below: one chunk per non-empty profile text (JavaScript
truthiness on the three content strings), all keyed
`(child_profile, childId)`. -/
def childProfileChunks (child : ChildProfileRow) (ageInMonths : Int)
    (childId : Nat) : List Chunk :=
  (if buildChildBasicInfoText child ageInMonths ≠ "" then
    [{ content := buildChildBasicInfoText child ageInMonths
       sourceType := "child_profile", sourceId := childId, childId := childId
       metadata := .basicInfo ageInMonths (child.gender.getD "未知") }]
   else [])
  ++ (if buildChildAllergyInfoText child ≠ "" then
    [{ content := buildChildAllergyInfoText child
       sourceType := "child_profile", sourceId := childId, childId := childId
       metadata := .allergyInfo child.allergyInfo.length }]
   else [])
  ++ (if buildChildMoreInfoText child ≠ "" then
    [{ content := buildChildMoreInfoText child
       sourceType := "child_profile", sourceId := childId, childId := childId
       metadata := .moreInfo }]
   else [])

def processChildProfile (findChild : Option ChildProfileRow) (today : SimpleDate)
    (childId : Nat) (store : List Chunk) : Bool × List Chunk :=
  match findChild with
  | none => (false, store)
  | some child =>
    let ageInMonths := (today.year - child.dateOfBirth.year) * 12
      + today.month - child.dateOfBirth.month
    let store1 := deleteTextChunksBySource store "child_profile" childId
    let chunks := childProfileChunks child ageInMonths childId
    let store2 := if chunks.isEmpty then store1 else addTextChunks store1 chunks
    (true, store2)

/-- Record row as read by `processRecord` (`prisma.record.findUnique`). -/
structure RecordData where
  id : Nat
  childId : Nat
  recordType : String
  timestampIso : String
  detailsJson : String
  deriving Repr

/-- Embeds `PreprocessingService.processRecord(recordId)` as a state
transformation of the `text_chunks` table. The private `buildRecordText`
(a pure switch over the record type that renders the details JSON into
text) is passed as an explicit function: its output string never affects
which `(sourceType, sourceId)` keys are deleted or inserted. A missing
record, or an empty rendered text, returns `false` without touching the
table; otherwise the old `record`/`recordId` chunks are deleted and the
single new chunk is inserted. -/
def processRecord (buildRecordText : RecordData → String)
    (findRecord : Option RecordData) (recordId : Nat) (store : List Chunk) :
    Bool × List Chunk :=
  match findRecord with
  | none => (false, store)
  | some record =>
    let recordContent := buildRecordText record
    if recordContent = "" then (false, store)
    else
      let store1 := deleteTextChunksBySource store "record" recordId
      let store2 := addTextChunks store1
        [{ content := recordContent, sourceType := "record", sourceId := recordId
           childId := record.childId
           metadata := .record record.recordType record.timestampIso record.detailsJson }]
      (true, store2)

end PreprocessingService

/-! ## Helper lemmas shared by the claim theorems -/

/-- Content events forwarded from the token stream are never terminal. -/
lemma mem_content_not_terminal {toks : List String} {e : AIService.StreamEvent}
    (h : e ∈ toks.map AIService.StreamEvent.content) : e.isTerminal = false := by
  obtain ⟨t, _, rfl⟩ := List.mem_map.mp h
  rfl

/-- Filtering the forwarded content events for terminal ones yields nothing. -/
lemma filter_terminal_content (toks : List String) :
    (toks.map AIService.StreamEvent.content).filter
      (fun e => e.isTerminal) = [] := by
  induction toks with
  | nil => rfl
  | cons t ts ih => simp [AIService.StreamEvent.isTerminal, ih]

/-- Decomposition of `performSafetyChecks`: the processed response is the
raw response followed by the allergy warning (exactly when the allergy
checker flags) and then the medical disclaimer (exactly when the medical
checker flags). -/
lemma performSafetyChecks_decomp (r : String) (info : List String) :
    ∃ w d, (AIService.performSafetyChecks r info).response = r ++ w ++ d ∧
      (if (AllergyChecker.check r (some info)).hasPotentialAllergy then
        w = AIService.allergyWarningText (AllergyChecker.check r (some info)).allergens
       else w = "") ∧
      (if (MedicalChecker.check r).containsMedicalAdvice then
        d = MedicalChecker.disclaimerText
       else d = "") := by
  by_cases hA : (AllergyChecker.check r (some info)).hasPotentialAllergy
  · by_cases hM : (MedicalChecker.check r).containsMedicalAdvice
    · refine ⟨AIService.allergyWarningText (AllergyChecker.check r (some info)).allergens,
        MedicalChecker.disclaimerText, ?_, by simp [hA], by simp [hM]⟩
      simp [AIService.performSafetyChecks, hA, hM, MedicalChecker.addDisclaimer]
    · refine ⟨AIService.allergyWarningText (AllergyChecker.check r (some info)).allergens,
        "", ?_, by simp [hA], by simp [hM]⟩
      simp [AIService.performSafetyChecks, hA, hM]
  · by_cases hM : (MedicalChecker.check r).containsMedicalAdvice
    · refine ⟨"", MedicalChecker.disclaimerText, ?_, by simp [hA], by simp [hM]⟩
      simp [AIService.performSafetyChecks, hA, hM, MedicalChecker.addDisclaimer]
    · refine ⟨"", "", ?_, by simp [hA], by simp [hM]⟩
      simp [AIService.performSafetyChecks, hA, hM]

/-- The final response of `finalizeResponse` always extends the raw one. -/
lemma finalizeResponse_prefix (full : String) (child : Option AIService.ChildContext) :
    ∃ s, (AIService.finalizeResponse full child).1 = full ++ s := by
  obtain ⟨w, d, hresp, -, -⟩ :=
    performSafetyChecks_decomp full ((child.map (fun c => c.allergyInfo)).getD [])
  cases child with
  | none =>
    refine ⟨w ++ d, ?_⟩
    simp at hresp
    simp [AIService.finalizeResponse, hresp, String.append_assoc]
  | some c =>
    refine ⟨w ++ d ++ AIService.ageGuidanceText c.ageInMonths, ?_⟩
    simp at hresp
    simp [AIService.finalizeResponse, AIService.getAgeSpecificGuidance, hresp,
      String.append_assoc]

/-! ## Claim theorems -/

/-- C1: for every streaming chat request — any behaviour of the context
factory, the provider token stream, and the persistence writer (success,
thrown error, or rejected promise at any stage) — the observable returned
by `AIService.chatStream` emits exactly one terminal event (`done` or
`error`), as its last event, and then completes; in particular a
context-build failure before any token yields exactly one terminal
`error` event. -/
theorem c1_chatStream_exactly_one_terminal (env : AIService.ChatStreamEnv) :
    (AIService.chatStream env).completed = true ∧
    ((AIService.chatStream env).events.filter (fun e => e.isTerminal)).length = 1 ∧
    ∃ pre t, (AIService.chatStream env).events = pre ++ [t] ∧
      t.isTerminal = true ∧ ∀ e ∈ pre, e.isTerminal = false := by
  obtain ⟨bc, ps, pw⟩ := env
  cases bc with
  | error e =>
    exact ⟨rfl, rfl, [], _, rfl, rfl, by simp⟩
  | ok ctx =>
    cases ps with
    | subscribeThrows m =>
      exact ⟨rfl, rfl, [], _, rfl, rfl, by simp⟩
    | errors toks m =>
      refine ⟨rfl, ?_, toks.map AIService.StreamEvent.content,
        .error ("流式生成回复失败: " ++ m), rfl, rfl,
        fun e he => mem_content_not_terminal he⟩
      simp [AIService.chatStream, List.filter_append, filter_terminal_content,
        AIService.StreamEvent.isTerminal]
    | completes toks =>
      cases hp : pw (AIService.finalizeResponse (String.join toks) ctx.child).1 with
      | ok chatId =>
        refine ⟨by simp [AIService.chatStream, hp], ?_,
          toks.map AIService.StreamEvent.content,
          .done chatId (AIService.finalizeResponse (String.join toks) ctx.child).2,
          by simp [AIService.chatStream, hp], rfl,
          fun e he => mem_content_not_terminal he⟩
        simp [AIService.chatStream, hp, List.filter_append, filter_terminal_content,
          AIService.StreamEvent.isTerminal]
      | error msg =>
        refine ⟨by simp [AIService.chatStream, hp], ?_,
          toks.map AIService.StreamEvent.content,
          .error ("处理流式聊天请求失败: " ++ msg),
          by simp [AIService.chatStream, hp], rfl,
          fun e he => mem_content_not_terminal he⟩
        simp [AIService.chatStream, hp, List.filter_append, filter_terminal_content,
          AIService.StreamEvent.isTerminal]

/-- C10 (implicit append-only safety pipeline): for every raw model output,
allergy list, and child age, `performSafetyChecks` followed by
`getAgeSpecificGuidance` keeps the raw output as a prefix and only ever
appends the allergy warning, the medical disclaimer, and the age-specific
guidance, in that order, each exactly when its condition holds; hence every
persisted `ChatHistory` row written by `chatStream` has `aiResponse`
starting with `rawAiResponse`. -/
theorem c10_safety_pipeline_append_only (r : String) (allergyInfo : List String)
    (age : Int) :
    (∃ w d,
      (AIService.performSafetyChecks r allergyInfo).response = r ++ w ++ d ∧
      AIService.getAgeSpecificGuidance
          (AIService.performSafetyChecks r allergyInfo).response age
        = r ++ w ++ d ++ AIService.ageGuidanceText age ∧
      (if (AllergyChecker.check r (some allergyInfo)).hasPotentialAllergy then
        w = AIService.allergyWarningText
          (AllergyChecker.check r (some allergyInfo)).allergens
       else w = "") ∧
      (if (MedicalChecker.check r).containsMedicalAdvice then
        d = MedicalChecker.disclaimerText
       else d = "")) ∧
    (∀ env row, (AIService.chatStream env).persisted = some row →
      ∃ s, row.aiResponse = row.rawAiResponse ++ s) := by
  constructor
  · obtain ⟨w, d, hresp, hw, hd⟩ := performSafetyChecks_decomp r allergyInfo
    exact ⟨w, d, hresp, by simp [AIService.getAgeSpecificGuidance, hresp], hw, hd⟩
  · intro env row hrow
    obtain ⟨bc, ps, pw⟩ := env
    cases bc with
    | error e => simp [AIService.chatStream] at hrow
    | ok ctx =>
      cases ps with
      | subscribeThrows m => simp [AIService.chatStream] at hrow
      | errors toks m => simp [AIService.chatStream] at hrow
      | completes toks =>
        cases hp : pw (AIService.finalizeResponse (String.join toks) ctx.child).1 with
        | ok chatId =>
          simp [AIService.chatStream, hp] at hrow
          obtain ⟨s, hs⟩ := finalizeResponse_prefix (String.join toks) ctx.child
          exact ⟨s, by rw [← hrow]; exact hs⟩
        | error msg => simp [AIService.chatStream, hp] at hrow

/-- Witness for C10 at concrete inputs: a response carrying a strong medical
indicator and an expansion-dictionary allergen match, and a persisted
benign exchange whose `aiResponse` starts with its `rawAiResponse`. -/
theorem c10_witness :
    (∃ w d,
      (AIService.performSafetyChecks "建议服用退烧药" ["牛奶"]).response
        = "建议服用退烧药" ++ w ++ d ∧
      AIService.getAgeSpecificGuidance
          (AIService.performSafetyChecks "建议服用退烧药" ["牛奶"]).response 2
        = "建议服用退烧药" ++ w ++ d ++ AIService.ageGuidanceText 2 ∧
      (if (AllergyChecker.check "建议服用退烧药" (some ["牛奶"])).hasPotentialAllergy then
        w = AIService.allergyWarningText
          (AllergyChecker.check "建议服用退烧药" (some ["牛奶"])).allergens
       else w = "") ∧
      (if (MedicalChecker.check "建议服用退烧药").containsMedicalAdvice then
        d = MedicalChecker.disclaimerText
       else d = "")) ∧
    (∃ s, ("你好" : String) = "你好" ++ s) := by
  constructor
  · exact (c10_safety_pipeline_append_only "建议服用退烧药" ["牛奶"] 2).1
  · exact (c10_safety_pipeline_append_only "" [] 0).2
      { buildContext := .ok ⟨none⟩, providerStream := .completes ["你好"]
        createChatHistory := fun _ => .ok 1 }
      { aiResponse := "你好", rawAiResponse := "你好" } (by decide)

/-- C5: an empty or `null` allergen list always yields no match, for every
response text; and every configured allergen that is absent from the text
itself but has an expansion-dictionary term matching the text is reported
as `<allergen>(<matchedTerm>)` (the matched term being the first matching
dictionary entry), with `hasPotentialAllergy = true`. -/
theorem c5_allergyChecker_empty_and_expansion (text : String) :
    AllergyChecker.check text none
      = { hasPotentialAllergy := false, allergens := [] } ∧
    AllergyChecker.check text (some [])
      = { hasPotentialAllergy := false, allergens := [] } ∧
    ∀ info allergen, allergen ∈ info →
      AllergyChecker.containsAllergen text allergen = false →
      (∃ k ∈ AllergyChecker.keywordsFor allergen,
        AllergyChecker.containsAllergen text k = true) →
      (AllergyChecker.check text (some info)).hasPotentialAllergy = true ∧
      ∃ k0, (AllergyChecker.keywordsFor allergen).find?
          (fun k => AllergyChecker.containsAllergen text k) = some k0 ∧
        (allergen ++ "(" ++ k0 ++ ")")
          ∈ (AllergyChecker.check text (some info)).allergens := by
  refine ⟨rfl, rfl, ?_⟩
  intro info allergen hmem hdirect hexp
  have hne : info.isEmpty = false := by
    cases info with
    | nil => cases hmem
    | cons a l => rfl
  have hfind : (AllergyChecker.keywordsFor allergen).find?
      (fun k => AllergyChecker.containsAllergen text k) ≠ none := by
    obtain ⟨k, hk, hck⟩ := hexp
    intro hnone
    have := List.find?_eq_none.mp hnone k hk
    simp [hck] at this
  obtain ⟨k0, hk0⟩ := Option.ne_none_iff_exists'.mp hfind
  have hdet : AllergyChecker.detectOne text allergen
      = some (allergen ++ "(" ++ k0 ++ ")") := by
    simp [AllergyChecker.detectOne, hdirect, hk0]
  have hmem2 : (allergen ++ "(" ++ k0 ++ ")")
      ∈ info.filterMap (AllergyChecker.detectOne text) :=
    List.mem_filterMap.mpr ⟨allergen, hmem, hdet⟩
  have hnil : info.filterMap (AllergyChecker.detectOne text) ≠ [] :=
    List.ne_nil_of_mem hmem2
  refine ⟨?_, k0, hk0, ?_⟩
  · simp [AllergyChecker.check, hne, hnil]
  · simpa [AllergyChecker.check, hne] using hmem2

/-- Witness for C5: arbitrary text with `null`/empty allergen lists, and the
milk allergen matched only through its cheese expansion term. -/
theorem c5_witness :
    AllergyChecker.check "今天可以吃奶酪蛋糕" none
      = { hasPotentialAllergy := false, allergens := [] } ∧
    AllergyChecker.check "今天可以吃奶酪蛋糕" (some [])
      = { hasPotentialAllergy := false, allergens := [] } ∧
    (AllergyChecker.check "今天可以吃奶酪蛋糕" (some ["牛奶"])).hasPotentialAllergy
      = true ∧
    "牛奶(奶酪)" ∈ (AllergyChecker.check "今天可以吃奶酪蛋糕" (some ["牛奶"])).allergens := by
  have h := c5_allergyChecker_empty_and_expansion "今天可以吃奶酪蛋糕"
  have h3 := h.2.2 ["牛奶"] "牛奶" (by decide) (by decide)
    ⟨"奶酪", by decide, by decide⟩
  have hk0 : (AllergyChecker.keywordsFor "牛奶").find?
      (fun k => AllergyChecker.containsAllergen "今天可以吃奶酪蛋糕" k)
      = some "奶酪" := by decide
  obtain ⟨hpot, k0, hk0v, hmem⟩ := h3
  have : some k0 = some "奶酪" := hk0v.symm.trans hk0
  obtain rfl : k0 = "奶酪" := Option.some_inj.mp this
  exact ⟨h.1, h.2.1, hpot, hmem⟩

/-- C6: the medical checker flags a response exactly when a strong
indicator phrase occurs or at least two of the (pairwise distinct) fixed
medical keywords occur; when a strong indicator occurs, keyword counting is
skipped and only the strong indicators are reported. -/
theorem c6_medicalChecker_two_tier (r : String) :
    ((MedicalChecker.check r).containsMedicalAdvice
      = (MedicalChecker.strongMedicalIndicators.any (fun i => strIncludes r i)
        || decide (2 ≤ (MedicalChecker.medicalKeywords.filter
            (fun k => strIncludes r k)).length))) ∧
    ((∃ i ∈ MedicalChecker.strongMedicalIndicators, strIncludes r i = true) →
      (MedicalChecker.check r).containsMedicalAdvice = true ∧
      (MedicalChecker.check r).medicalTerms
        = MedicalChecker.strongMedicalIndicators.filter (fun i => strIncludes r i)) ∧
    MedicalChecker.medicalKeywords.Nodup := by
  refine ⟨?_, ?_, by decide⟩
  · cases h : (MedicalChecker.strongMedicalIndicators.filter
        (fun i => strIncludes r i)).isEmpty with
    | true =>
      have hnil : MedicalChecker.strongMedicalIndicators.filter
          (fun i => strIncludes r i) = [] := by
        simpa using h
      have hany : MedicalChecker.strongMedicalIndicators.any
          (fun i => strIncludes r i) = false := by
        rw [List.any_eq_false]
        intro i hi
        have := List.filter_eq_nil_iff.mp hnil i hi
        simpa using this
      simp [MedicalChecker.check, h, hany]
    | false =>
      have hex : ∃ x ∈ MedicalChecker.strongMedicalIndicators,
          strIncludes r x = true := by
        simpa using h
      have hany : MedicalChecker.strongMedicalIndicators.any
          (fun i => strIncludes r i) = true := by
        rw [List.any_eq_true]
        simpa using hex
      simp [MedicalChecker.check, h, hany]
  · intro ⟨i, hi, hinc⟩
    have hmemf : i ∈ MedicalChecker.strongMedicalIndicators.filter
        (fun i => strIncludes r i) := List.mem_filter.mpr ⟨hi, hinc⟩
    have hne : (MedicalChecker.strongMedicalIndicators.filter
        (fun i => strIncludes r i)).isEmpty = false := by
      cases hF : MedicalChecker.strongMedicalIndicators.filter
          (fun i => strIncludes r i) with
      | nil => rw [hF] at hmemf; cases hmemf
      | cons a l => rfl
    exact ⟨by simp [MedicalChecker.check, hne], by simp [MedicalChecker.check, hne]⟩

/-- Witness for C6: a response with a strong indicator phrase is flagged
with the strong indicators alone; a two-keyword response without strong
indicators is flagged; a benign response is not. -/
theorem c6_witness :
    (MedicalChecker.check "宝宝生病了建议就医检查").containsMedicalAdvice = true ∧
    (MedicalChecker.check "宝宝生病了建议就医检查").medicalTerms
      = MedicalChecker.strongMedicalIndicators.filter
          (fun i => strIncludes "宝宝生病了建议就医检查" i) ∧
    (MedicalChecker.check "宝宝发烧时注意体温变化").containsMedicalAdvice
      = (MedicalChecker.strongMedicalIndicators.any
          (fun i => strIncludes "宝宝发烧时注意体温变化" i)
        || decide (2 ≤ (MedicalChecker.medicalKeywords.filter
            (fun k => strIncludes "宝宝发烧时注意体温变化" k)).length)) := by
  have h1 := (c6_medicalChecker_two_tier "宝宝生病了建议就医检查").2.1
    ⟨"建议就医", by decide, by decide⟩
  exact ⟨h1.1, h1.2, (c6_medicalChecker_two_tier "宝宝发烧时注意体温变化").1⟩

/-- The accumulated sum of squares is nonnegative. -/
lemma sumSq_nonneg (v : List ℚ) : 0 ≤ EmbeddingService.sumSq v := by
  unfold EmbeddingService.sumSq
  apply List.sum_nonneg
  intro x hx
  obtain ⟨y, _, rfl⟩ := List.mem_map.mp hx
  exact mul_self_nonneg y

/-- C8: `calculateCosineSimilarity` fails with the dimension-mismatch error
exactly when the two lengths differ; with equal lengths and either vector
of zero norm (zero sum of squares) it returns 0 without error. `sqrt` is
any model of `Math.sqrt` vanishing exactly at 0 on nonnegative inputs. -/
theorem c8_cosine_error_and_zero_norm (sqrt : ℚ → ℚ) (a b : List ℚ)
    (hs : ∀ x : ℚ, 0 ≤ x → (sqrt x = 0 ↔ x = 0)) :
    ((∃ msg, EmbeddingService.calculateCosineSimilarity sqrt a b = .error msg)
      ↔ a.length ≠ b.length) ∧
    (a.length = b.length →
      EmbeddingService.sumSq a = 0 ∨ EmbeddingService.sumSq b = 0 →
      EmbeddingService.calculateCosineSimilarity sqrt a b = .ok 0) := by
  constructor
  · constructor
    · rintro ⟨msg, hmsg⟩ hlen
      unfold EmbeddingService.calculateCosineSimilarity at hmsg
      rw [if_neg (by simp [hlen])] at hmsg
      dsimp only at hmsg
      split at hmsg <;> cases hmsg
    · intro hlen
      exact ⟨_, by rw [EmbeddingService.calculateCosineSimilarity, if_pos hlen]⟩
  · intro hlen hzero
    have hz : sqrt (EmbeddingService.sumSq a) = 0 ∨
        sqrt (EmbeddingService.sumSq b) = 0 := by
      rcases hzero with h | h
      · exact Or.inl ((hs _ (sumSq_nonneg a)).mpr h)
      · exact Or.inr ((hs _ (sumSq_nonneg b)).mpr h)
    unfold EmbeddingService.calculateCosineSimilarity
    rw [if_neg (by simp [hlen])]
    exact if_pos hz

/-- Witness for C8 with `sqrt` instantiated to the identity: a zero vector
against a non-zero one of the same length yields similarity 0, and a
length mismatch yields an error. -/
theorem c8_witness :
    EmbeddingService.calculateCosineSimilarity (fun x => x) [0, 0] [3, 4]
      = .ok 0 ∧
    ∃ msg, EmbeddingService.calculateCosineSimilarity (fun x => x) [1] [1, 2]
      = .error msg := by
  have hs : ∀ x : ℚ, 0 ≤ x → ((fun x : ℚ => x) x = 0 ↔ x = 0) := by
    intro x _
    simp
  constructor
  · exact (c8_cosine_error_and_zero_norm (fun x => x) [0, 0] [3, 4] hs).2
      (by decide) (Or.inl (by norm_num [EmbeddingService.sumSq]))
  · exact (c8_cosine_error_and_zero_norm (fun x => x) [1] [1, 2] hs).1.mpr
      (by decide)

/-- When every candidate matches the query's dimension, the scoring map
succeeds, scores every candidate, and pairs index `j` with the metadata at
absolute position `i + j`. -/
lemma scoredResultsFrom_ok {T : Type} (sqrt : ℚ → ℚ) (q : List ℚ)
    (md : Option (List T)) :
    ∀ (vectors : List (List ℚ)) (i : Nat),
      (∀ v ∈ vectors, v.length = q.length) →
      ∃ base, EmbeddingService.scoredResultsFrom sqrt q md i vectors = .ok base ∧
        base.length = vectors.length ∧
        ∀ j v, vectors[j]? = some v → ∃ s,
          base[j]? = some ({ vector := v, similarity := s
                             metadata := EmbeddingService.mdAt md (i + j) } :
            EmbeddingService.SimResult T) := by
  intro vectors
  induction vectors with
  | nil =>
    intro i _
    exact ⟨[], rfl, rfl, by intro j v hj; simp at hj⟩
  | cons v vs ih =>
    intro i h
    have hv : v.length = q.length := h v (List.mem_cons_self v vs)
    have hcos : ∃ s, EmbeddingService.calculateCosineSimilarity sqrt q v = .ok s := by
      unfold EmbeddingService.calculateCosineSimilarity
      rw [if_neg (by simp [hv])]
      dsimp only
      split
      · exact ⟨0, rfl⟩
      · exact ⟨_, rfl⟩
    obtain ⟨s, hcoss⟩ := hcos
    obtain ⟨rest, hrest, hlenr, hidx⟩ := ih (i + 1)
      (fun w hw => h w (List.mem_cons_of_mem v hw))
    refine ⟨{ vector := v, similarity := s, metadata := EmbeddingService.mdAt md i }
      :: rest, ?_, by simp [hlenr], ?_⟩
    · simp only [EmbeddingService.scoredResultsFrom, hcoss, hrest]
      rfl
    · intro j w hj
      cases j with
      | zero =>
        simp at hj
        subst hj
        exact ⟨s, by simp⟩
      | succ j =>
        simp at hj
        obtain ⟨s2, hs2⟩ := hidx j w (by simpa using hj)
        refine ⟨s2, ?_⟩
        have : i + 1 + j = i + (j + 1) := by omega
        simp [hs2, this]

/-- C7: with every candidate of the query's dimension, `sortBySimilarity`
returns all candidates (a permutation of the index-scored list, so each is
paired with the metadata at its own index) ordered descending by
similarity, and `findMostSimilar` returns at most `topK` entries, each with
`similarity ≥ minSimilarity`, and `[]` when no candidate qualifies. -/
theorem c7_sort_and_findMostSimilar {T : Type} (sqrt : ℚ → ℚ) (q : List ℚ)
    (vectors : List (List ℚ)) (md : Option (List T))
    (h : ∀ v ∈ vectors, v.length = q.length) :
    ∃ base results,
      EmbeddingService.scoredResults sqrt q vectors md = .ok base ∧
      EmbeddingService.sortVectorsBySimilarity sqrt q vectors md = .ok results ∧
      results.Perm base ∧
      base.length = vectors.length ∧
      (∀ j v, vectors[j]? = some v → ∃ s,
        base[j]? = some ({ vector := v, similarity := s
                           metadata := EmbeddingService.mdAt md j } :
          EmbeddingService.SimResult T)) ∧
      List.Sorted EmbeddingService.simDesc results ∧
      ∀ topK minSim, ∃ out,
        EmbeddingService.findMostSimilarVectors sqrt q vectors md topK minSim
          = .ok out ∧
        out.length ≤ topK ∧
        (∀ x ∈ out, minSim ≤ x.similarity) ∧
        ((∀ rb ∈ base, rb.similarity < minSim) → out = []) := by
  obtain ⟨base, hbase, hlen, hidx⟩ := scoredResultsFrom_ok sqrt q md vectors 0 h
  have hbase' : EmbeddingService.scoredResults sqrt q vectors md = .ok base := hbase
  have hsort : EmbeddingService.sortVectorsBySimilarity sqrt q vectors md
      = .ok (base.insertionSort EmbeddingService.simDesc) := by
    unfold EmbeddingService.sortVectorsBySimilarity
    cases hv : vectors.isEmpty with
    | true =>
      have : vectors = [] := by simpa using hv
      subst this
      have : base = [] := by
        cases hbase
        rfl
      simp [this]
    | false =>
      simp [hv, EmbeddingService.scoredResults] at hbase ⊢
      simp [hbase]
  refine ⟨base, base.insertionSort EmbeddingService.simDesc, hbase', hsort,
    List.perm_insertionSort _ _, hlen, by simpa using hidx,
    List.sorted_insertionSort _ _, ?_⟩
  intro topK minSim
  refine ⟨((base.insertionSort EmbeddingService.simDesc).filter
    (fun r => minSim ≤ r.similarity)).take topK, ?_, ?_, ?_, ?_⟩
  · unfold EmbeddingService.findMostSimilarVectors
    rw [hsort]
    rfl
  · exact le_trans (List.length_take_le _ _) (le_refl _)
  · intro x hx
    have hxf := List.mem_of_mem_take hx
    have := List.mem_filter.mp hxf
    exact of_decide_eq_true this.2
  · intro hall
    have hfil : (base.insertionSort EmbeddingService.simDesc).filter
        (fun r => minSim ≤ r.similarity) = [] := by
      rw [List.filter_eq_nil_iff]
      intro x hx
      have hxb : x ∈ base := (List.perm_insertionSort _ _).mem_iff.mp hx
      have := hall x hxb
      simp [not_le.mpr this]
    simp [hfil]

/-- Witness for C7 at a concrete query, candidate set, and metadata. -/
theorem c7_witness :
    ∃ base results,
      EmbeddingService.scoredResults (fun x => x) [1, 0] [[1, 0], [0, 1]]
        (some ["a", "b"]) = .ok base ∧
      EmbeddingService.sortVectorsBySimilarity (fun x => x) [1, 0]
        [[1, 0], [0, 1]] (some ["a", "b"]) = .ok results ∧
      results.Perm base ∧
      base.length = [[1, 0], [0, 1]].length ∧
      (∀ j v, [[(1 : ℚ), 0], [0, 1]][j]? = some v → ∃ s,
        base[j]? = some ({ vector := v, similarity := s
                           metadata := EmbeddingService.mdAt (some ["a", "b"]) j } :
          EmbeddingService.SimResult String)) ∧
      List.Sorted EmbeddingService.simDesc results ∧
      ∀ topK minSim, ∃ out,
        EmbeddingService.findMostSimilarVectors (fun x => x) [1, 0]
          [[1, 0], [0, 1]] (some ["a", "b"]) topK minSim = .ok out ∧
        out.length ≤ topK ∧
        (∀ x ∈ out, minSim ≤ x.similarity) ∧
        ((∀ rb ∈ base, rb.similarity < minSim) → out = []) :=
  c7_sort_and_findMostSimilar (fun x => x) [1, 0] [[1, 0], [0, 1]]
    (some ["a", "b"]) (by decide)

/-- C3: for empty or whitespace-only text, `generateEmbedding` fails with
the empty-input error regardless of the provider (the provider is never
consulted: the result is the same for every provider); for non-blank text
and a provider returning a vector of the configured dimension `D`, the
call succeeds with that vector of length `D` (a length mismatch is only
logged, so conformance of the provider is the hypothesis). -/
theorem c3_generateEmbedding_empty_and_dimension
    (embedQuery : String → Except String (List ℚ)) (text : String) (D : Nat) :
    (jsTrim text = "" →
      EmbeddingService.generateEmbedding embedQuery text
        = .error ("生成嵌入失败: " ++ "嵌入文本不能为空") ∧
      ∀ q2, EmbeddingService.generateEmbedding q2 text
        = EmbeddingService.generateEmbedding embedQuery text) ∧
    (∀ v, jsTrim text ≠ "" → embedQuery text = .ok v → v.length = D →
      EmbeddingService.generateEmbedding embedQuery text = .ok v ∧ v.length = D) := by
  constructor
  · intro htrim
    refine ⟨by simp [EmbeddingService.generateEmbedding, htrim], ?_⟩
    intro q2
    simp [EmbeddingService.generateEmbedding, htrim]
  · intro v htrim hq hd
    have hguard : ¬ (text = "" ∨ jsTrim text = "") := by
      rintro (rfl | hble)
      · exact htrim rfl
      · exact htrim hble
    rw [EmbeddingService.generateEmbedding, if_neg hguard, hq]
    exact ⟨rfl, hd⟩

/-- Witness for C3: a whitespace-only text is rejected before the provider
is consulted, and a non-blank text passes the provider's 3-dimensional
vector through. -/
theorem c3_witness :
    (EmbeddingService.generateEmbedding (fun _ => .ok [5]) "  "
        = .error ("生成嵌入失败: " ++ "嵌入文本不能为空") ∧
      ∀ q2, EmbeddingService.generateEmbedding q2 "  "
        = EmbeddingService.generateEmbedding (fun _ => .ok [5]) "  ") ∧
    (EmbeddingService.generateEmbedding (fun _ => .ok [1, 2, 3]) "宝宝辅食"
        = .ok [1, 2, 3] ∧ ([1, 2, 3] : List ℚ).length = 3) := by
  constructor
  · exact (c3_generateEmbedding_empty_and_dimension (fun _ => .ok [5]) "  " 1).1
      (by decide)
  · exact (c3_generateEmbedding_empty_and_dimension (fun _ => .ok [1, 2, 3])
      "宝宝辅食" 3).2 [1, 2, 3] (by decide) rfl rfl

/-- C4 (code bug): the context assemblers do not implement the specified
age formula. `ContextRagFactory.calculateAgeInMonths` returns the
hard-coded value 28 for the birth date 2023-01-09 at every current date,
while the specified formula gives 33 on 2025-10-11 (the hard-coded branch
was written for a mocked clock of 2025-05-09, where the two agree); it
agrees with the formula away from the three hard-coded dates (shown at
2023-02-09). The plain `ContextFactory.calculateAgeInMonths` (used by the
chat path) omits the day-of-month adjustment and the clamp entirely:
33 instead of 32 for birth 2023-01-15 on 2025-10-11. -/
theorem c4_age_formula_divergence :
    ContextRagFactory.calculateAgeInMonths ⟨2025, 10, 11⟩ ⟨2023, 1, 9⟩ = 28 ∧
    ContextRagFactory.specAgeInMonths ⟨2025, 10, 11⟩ ⟨2023, 1, 9⟩ = 33 ∧
    ContextFactory.calculateAgeInMonths ⟨2025, 10, 11⟩ ⟨2023, 1, 15⟩ = 33 ∧
    ContextRagFactory.specAgeInMonths ⟨2025, 10, 11⟩ ⟨2023, 1, 15⟩ = 32 ∧
    ContextRagFactory.calculateAgeInMonths ⟨2025, 10, 11⟩ ⟨2023, 2, 9⟩ = 32 ∧
    ContextRagFactory.specAgeInMonths ⟨2025, 10, 11⟩ ⟨2023, 2, 9⟩ = 32 ∧
    ContextRagFactory.calculateAgeInMonths ⟨2025, 5, 9⟩ ⟨2023, 1, 9⟩ = 28 ∧
    ContextRagFactory.specAgeInMonths ⟨2025, 5, 9⟩ ⟨2023, 1, 9⟩ = 28 := by
  exact ⟨by decide, by decide, by decide, by decide, by decide, by decide,
    by decide, by decide⟩

/-- After deleting by source, no chunk with that source key remains. -/
lemma filter_key_deleteBySource (store : List PreprocessingService.Chunk)
    (st : String) (si : Nat) :
    (PreprocessingService.deleteTextChunksBySource store st si).filter
      (fun ch => ch.sourceType == st && ch.sourceId == si) = [] := by
  unfold PreprocessingService.deleteTextChunksBySource
  rw [List.filter_filter]
  apply List.eq_nil_iff_forall_not_mem.mpr
  intro ch hch
  have := (List.mem_filter.mp hch).2
  simp at this
  obtain ⟨⟨h1, h2⟩, h3⟩ := this
  exact h3.elim (fun hx => hx h1) (fun hx => hx h2)

/-- Membership in a conditional singleton. -/
lemma mem_ite_singleton {α : Type} {x a : α} {P : Prop} [Decidable P]
    (h : x ∈ (if P then [a] else [])) : x = a := by
  split at h
  · simpa using h
  · cases h

/-- Every chunk built by `childProfileChunks` carries the processed source
key `(child_profile, childId)`. -/
lemma childProfileChunks_key (c : PreprocessingService.ChildProfileRow)
    (age : Int) (cid : Nat) :
    ∀ ch ∈ PreprocessingService.childProfileChunks c age cid,
      (ch.sourceType == "child_profile" && ch.sourceId == cid) = true := by
  intro ch hch
  unfold PreprocessingService.childProfileChunks at hch
  rcases List.mem_append.mp hch with h12 | h3
  · rcases List.mem_append.mp h12 with h1 | h2
    · rw [mem_ite_singleton h1]
      simp
    · rw [mem_ite_singleton h2]
      simp
  · rw [mem_ite_singleton h3]
    simp

/-- C9: each preprocessing run over a source entity replaces the chunks of
that `(sourceType, sourceId)`: the old ones are deleted before the new ones
are inserted, so the post-state chunks for that source are exactly the
newly generated ones, whatever was stored before (no accumulation). -/
theorem c9_replace_not_merge (c : PreprocessingService.ChildProfileRow)
    (today : SimpleDate) (cid : Nat)
    (buildRecordText : PreprocessingService.RecordData → String)
    (r : PreprocessingService.RecordData) (rid : Nat) :
    (∀ store,
      (PreprocessingService.processChildProfile (some c) today cid store).1 = true ∧
      (PreprocessingService.processChildProfile (some c) today cid store).2
        = PreprocessingService.deleteTextChunksBySource store "child_profile" cid
          ++ PreprocessingService.childProfileChunks c
              ((today.year - c.dateOfBirth.year) * 12
                + today.month - c.dateOfBirth.month) cid ∧
      (PreprocessingService.processChildProfile (some c) today cid store).2.filter
          (fun ch => ch.sourceType == "child_profile" && ch.sourceId == cid)
        = PreprocessingService.childProfileChunks c
            ((today.year - c.dateOfBirth.year) * 12
              + today.month - c.dateOfBirth.month) cid) ∧
    (buildRecordText r ≠ "" → ∀ store,
      (PreprocessingService.processRecord buildRecordText (some r) rid store).1
        = true ∧
      (PreprocessingService.processRecord buildRecordText (some r) rid store).2
        = PreprocessingService.deleteTextChunksBySource store "record" rid
          ++ [{ content := buildRecordText r, sourceType := "record"
                sourceId := rid, childId := r.childId
                metadata := .record r.recordType r.timestampIso r.detailsJson }] ∧
      (PreprocessingService.processRecord buildRecordText (some r) rid store).2.filter
          (fun ch => ch.sourceType == "record" && ch.sourceId == rid)
        = [{ content := buildRecordText r, sourceType := "record"
             sourceId := rid, childId := r.childId
             metadata := .record r.recordType r.timestampIso r.detailsJson }]) := by
  constructor
  · intro store
    have h2 : (PreprocessingService.processChildProfile (some c) today cid store).2
        = PreprocessingService.deleteTextChunksBySource store "child_profile" cid
          ++ PreprocessingService.childProfileChunks c
              ((today.year - c.dateOfBirth.year) * 12
                + today.month - c.dateOfBirth.month) cid := by
      unfold PreprocessingService.processChildProfile
      dsimp only
      split
      · next hE =>
        rw [show PreprocessingService.childProfileChunks c
            ((today.year - c.dateOfBirth.year) * 12
              + today.month - c.dateOfBirth.month) cid = [] from by simpa using hE]
        simp
      · rfl
    refine ⟨rfl, h2, ?_⟩
    rw [h2, List.filter_append, filter_key_deleteBySource, List.nil_append]
    exact List.filter_eq_self.mpr (childProfileChunks_key c _ cid)
  · intro hne store
    have h2 : (PreprocessingService.processRecord buildRecordText (some r) rid store).2
        = PreprocessingService.deleteTextChunksBySource store "record" rid
          ++ [{ content := buildRecordText r, sourceType := "record"
                sourceId := rid, childId := r.childId
                metadata := .record r.recordType r.timestampIso r.detailsJson }] := by
      unfold PreprocessingService.processRecord
      dsimp only
      rw [if_neg hne]
      rfl
    have h1 : (PreprocessingService.processRecord buildRecordText (some r) rid store).1
        = true := by
      unfold PreprocessingService.processRecord
      dsimp only
      rw [if_neg hne]
    refine ⟨h1, h2, ?_⟩
    rw [h2, List.filter_append, filter_key_deleteBySource, List.nil_append]
    simp

/-- Witness for C9: a concrete child profile and record, each processed over
a store already holding a stale chunk with the same source key; the
post-state chunks for the key are exactly the fresh ones. -/
theorem c9_witness :
    (PreprocessingService.processChildProfile
        (some { id := 1, userId := 2, nickname := "小明", dateOfBirth := ⟨2023, 1, 1⟩
                gender := some "男", allergyInfo := ["牛奶"], moreInfo := some "喜欢玩球" })
        ⟨2025, 5, 9⟩ 1
        [{ content := "old", sourceType := "child_profile", sourceId := 1
           childId := 1, metadata := .moreInfo }]).1 = true ∧
    (PreprocessingService.processChildProfile
        (some { id := 1, userId := 2, nickname := "小明", dateOfBirth := ⟨2023, 1, 1⟩
                gender := some "男", allergyInfo := ["牛奶"], moreInfo := some "喜欢玩球" })
        ⟨2025, 5, 9⟩ 1
        [{ content := "old", sourceType := "child_profile", sourceId := 1
           childId := 1, metadata := .moreInfo }]).2.filter
        (fun ch => ch.sourceType == "child_profile" && ch.sourceId == 1)
      = PreprocessingService.childProfileChunks
          { id := 1, userId := 2, nickname := "小明", dateOfBirth := ⟨2023, 1, 1⟩
            gender := some "男", allergyInfo := ["牛奶"], moreInfo := some "喜欢玩球" }
          28 1 ∧
    (PreprocessingService.processRecord (fun _ => "睡眠记录")
        (some { id := 7, childId := 1, recordType := "sleep"
                timestampIso := "2025-05-09T08:00:00Z", detailsJson := "d" }) 7
        [{ content := "oldrec", sourceType := "record", sourceId := 7
           childId := 1, metadata := .moreInfo }]).2.filter
        (fun ch => ch.sourceType == "record" && ch.sourceId == 7)
      = [{ content := "睡眠记录", sourceType := "record", sourceId := 7, childId := 1
           metadata := .record "sleep" "2025-05-09T08:00:00Z" "d" }] := by
  have h := c9_replace_not_merge
    { id := 1, userId := 2, nickname := "小明", dateOfBirth := ⟨2023, 1, 1⟩
      gender := some "男", allergyInfo := ["牛奶"], moreInfo := some "喜欢玩球" }
    ⟨2025, 5, 9⟩ 1 (fun _ => "睡眠记录")
    { id := 7, childId := 1, recordType := "sleep"
      timestampIso := "2025-05-09T08:00:00Z", detailsJson := "d" } 7
  have h1 := h.1 [{ content := "old", sourceType := "child_profile", sourceId := 1
                    childId := 1, metadata := .moreInfo }]
  have h2 := h.2 (by decide)
    [{ content := "oldrec", sourceType := "record", sourceId := 7
       childId := 1, metadata := .moreInfo }]
  refine ⟨h1.1, ?_, ?_⟩
  · have hage := h1.2.2
    simpa using hage
  · have hrec := h2.2.2
    simpa using hrec

/-- Fields produced by the traditional fallback, for any prior context:
`vectorSearchResults` is cleared to `undefined`, the records come unscored
from the traditional reader, and the chat history is the user's last 5
turns filtered to the child. -/
lemma fallback_fields (env : ContextRagFactory.RagEnv) (cid : Nat)
    (recs : List ContextRagFactory.RecordRow)
    (chats : List ContextRagFactory.ChatRow)
    (hcid : cid ≠ 0)
    (hrec : env.findAllByChild = .ok recs)
    (hchat : env.getUserChats 5 = .ok chats) :
    ∀ ctx : ContextRagFactory.RagContext,
      (ContextRagFactory.fallbackToTraditionalContext env ctx cid).vectorSearchResults
        = none ∧
      (ContextRagFactory.fallbackToTraditionalContext env ctx cid).relevantRecords
        = recs.map (fun record =>
            { type := record.recordType, details := record.details
              createdAt := record.recordTimestamp, similarity := none }) ∧
      (ContextRagFactory.fallbackToTraditionalContext env ctx cid).relevantChatHistory
        = (chats.filter (fun chat => chat.childId == some cid)).map (fun chat =>
            { userMessage := chat.userMessage, aiResponse := chat.aiResponse
              createdAt := chat.requestTimestamp, similarity := none }) := by
  intro ctx
  unfold ContextRagFactory.fallbackToTraditionalContext
  rw [hrec, hchat]
  dsimp only
  rw [if_pos hcid]
  exact ⟨rfl, rfl, rfl⟩

/-- C2: with a child selected (`childId` truthy) and the traditional
readers available, any failure of the child-profile fetch (rejection or
missing child) or of the vector similarity search is absorbed: the built
context has `vectorSearchResults = undefined` (`none`, not the empty
list), `relevantRecords` from the traditional reader for the child, and
`relevantChatHistory` the user's last 5 turns filtered to the child.
When the vector search succeeds with no hits, `vectorSearchResults` is the
empty list. -/
theorem c2_fallback_policy (env : ContextRagFactory.RagEnv)
    (userId : Nat) (cid : Nat) (recs : List ContextRagFactory.RecordRow)
    (chats : List ContextRagFactory.ChatRow)
    (hcid : cid ≠ 0)
    (hrec : env.findAllByChild = .ok recs)
    (hchat : env.getUserChats 5 = .ok chats) :
    (((∃ e, env.findOne = .error e) ∨ env.findOne = .ok none ∨
        (∃ e, env.searchSimilarTextChunks = .error e)) →
      (ContextRagFactory.buildContext env userId (some cid)).vectorSearchResults
        = none ∧
      (ContextRagFactory.buildContext env userId (some cid)).relevantRecords
        = recs.map (fun record =>
            { type := record.recordType, details := record.details
              createdAt := record.recordTimestamp, similarity := none }) ∧
      (ContextRagFactory.buildContext env userId (some cid)).relevantChatHistory
        = (chats.filter (fun chat => chat.childId == some cid)).map (fun chat =>
            { userMessage := chat.userMessage, aiResponse := chat.aiResponse
              createdAt := chat.requestTimestamp, similarity := none })) ∧
    (∀ child, env.findOne = .ok (some child) →
      env.searchSimilarTextChunks = .ok [] →
      (ContextRagFactory.buildContext env userId (some cid)).vectorSearchResults
        = some []) := by
  have hfb := fallback_fields env cid recs chats hcid hrec hchat
  constructor
  · intro htrig
    rcases htrig with ⟨e, he⟩ | hnone | ⟨e, he⟩
    · unfold ContextRagFactory.buildContext
      dsimp only
      rw [if_neg hcid, he]
      exact hfb _
    · unfold ContextRagFactory.buildContext
      dsimp only
      rw [if_neg hcid, hnone]
      exact hfb _
    · unfold ContextRagFactory.buildContext
      dsimp only
      rw [if_neg hcid]
      rcases hFO : env.findOne with e2 | oc
      · exact hfb _
      · cases oc with
        | none => exact hfb _
        | some child =>
          have hvp : ∀ ctx0 : ContextRagFactory.RagContext,
              ContextRagFactory.vectorPath env ctx0 = .error e := by
            intro ctx0
            unfold ContextRagFactory.vectorPath
            rw [he]
            rfl
          dsimp only
          rw [hvp]
          exact hfb _
  · intro child hch hsearch
    unfold ContextRagFactory.buildContext
    dsimp only
    rw [if_neg hcid, hch]
    have hvp : ∀ ctx0 : ContextRagFactory.RagContext,
        ContextRagFactory.vectorPath env ctx0
          = .ok { ctx0 with vectorSearchResults := some [] } := by
      intro ctx0
      unfold ContextRagFactory.vectorPath
      rw [hsearch]
      rfl
    dsimp only
    rw [hvp]

/-- Witness for C2: a rejected child-profile fetch with working traditional
readers falls back to `undefined` vector results, the child's records, and
the child-filtered last chat turns. -/
theorem c2_witness :
    (ContextRagFactory.buildContext
        { today := ⟨2025, 5, 9⟩, findOne := .error "数据库不可用"
          searchSimilarTextChunks := .ok [], findRecord := fun _ => .ok none
          getChatHistoryById := fun _ => .ok none
          findAllByChild := .ok [{ id := 3, recordType := "sleep", details := "d"
                                   recordTimestamp := "2025-05-01" }]
          getUserChats := fun _ => .ok
            [{ id := 10, childId := some 1, userMessage := "u1", aiResponse := "a1"
               requestTimestamp := "t1" },
             { id := 11, childId := some 2, userMessage := "u2", aiResponse := "a2"
               requestTimestamp := "t2" }]
          findAll := .ok [] } 9 (some 1)).vectorSearchResults = none ∧
    (ContextRagFactory.buildContext
        { today := ⟨2025, 5, 9⟩, findOne := .error "数据库不可用"
          searchSimilarTextChunks := .ok [], findRecord := fun _ => .ok none
          getChatHistoryById := fun _ => .ok none
          findAllByChild := .ok [{ id := 3, recordType := "sleep", details := "d"
                                   recordTimestamp := "2025-05-01" }]
          getUserChats := fun _ => .ok
            [{ id := 10, childId := some 1, userMessage := "u1", aiResponse := "a1"
               requestTimestamp := "t1" },
             { id := 11, childId := some 2, userMessage := "u2", aiResponse := "a2"
               requestTimestamp := "t2" }]
          findAll := .ok [] } 9 (some 1)).relevantRecords
      = [{ type := "sleep", details := "d", createdAt := "2025-05-01"
           similarity := none }] ∧
    (ContextRagFactory.buildContext
        { today := ⟨2025, 5, 9⟩, findOne := .error "数据库不可用"
          searchSimilarTextChunks := .ok [], findRecord := fun _ => .ok none
          getChatHistoryById := fun _ => .ok none
          findAllByChild := .ok [{ id := 3, recordType := "sleep", details := "d"
                                   recordTimestamp := "2025-05-01" }]
          getUserChats := fun _ => .ok
            [{ id := 10, childId := some 1, userMessage := "u1", aiResponse := "a1"
               requestTimestamp := "t1" },
             { id := 11, childId := some 2, userMessage := "u2", aiResponse := "a2"
               requestTimestamp := "t2" }]
          findAll := .ok [] } 9 (some 1)).relevantChatHistory
      = [{ userMessage := "u1", aiResponse := "a1", createdAt := "t1"
           similarity := none }] := by
  have h := (c2_fallback_policy
    { today := ⟨2025, 5, 9⟩, findOne := .error "数据库不可用"
      searchSimilarTextChunks := .ok [], findRecord := fun _ => .ok none
      getChatHistoryById := fun _ => .ok none
      findAllByChild := .ok [{ id := 3, recordType := "sleep", details := "d"
                               recordTimestamp := "2025-05-01" }]
      getUserChats := fun _ => .ok
        [{ id := 10, childId := some 1, userMessage := "u1", aiResponse := "a1"
           requestTimestamp := "t1" },
         { id := 11, childId := some 2, userMessage := "u2", aiResponse := "a2"
           requestTimestamp := "t2" }]
      findAll := .ok [] } 9 1
    [{ id := 3, recordType := "sleep", details := "d"
       recordTimestamp := "2025-05-01" }]
    [{ id := 10, childId := some 1, userMessage := "u1", aiResponse := "a1"
       requestTimestamp := "t1" },
     { id := 11, childId := some 2, userMessage := "u2", aiResponse := "a2"
       requestTimestamp := "t2" }]
    (by decide) rfl rfl).1 (Or.inl ⟨"数据库不可用", rfl⟩)
  exact ⟨h.1, h.2.1.trans (by decide), h.2.2.trans (by decide)⟩

/-- Witness for C1: a context-build failure before any token yields one
terminal error event and completion. -/
theorem c1_witness :
    (AIService.chatStream
      { buildContext := .error "超时"
        providerStream := .completes []
        createChatHistory := fun _ => .ok 1 }).completed = true ∧
    ((AIService.chatStream
      { buildContext := .error "超时"
        providerStream := .completes []
        createChatHistory := fun _ => .ok 1 }).events.filter
        (fun e => e.isTerminal)).length = 1 ∧
    ∃ pre t,
      (AIService.chatStream
        { buildContext := .error "超时"
          providerStream := .completes []
          createChatHistory := fun _ => .ok 1 }).events = pre ++ [t] ∧
      t.isTerminal = true ∧ ∀ e ∈ pre, e.isTerminal = false :=
  c1_chatStream_exactly_one_terminal
    { buildContext := .error "超时"
      providerStream := .completes []
      createChatHistory := fun _ => .ok 1 }
